import Mathlib

/-!
# Mesh-part render payloads (libraries/render-utils/src/MeshPartPayload.cpp)

A shallow embedding of the key/bound/shape-key queries of `MeshPartPayload` and
`ModelMeshPartPayload`, and of the `render::` accessor specialisations that
forward to them.

Conventions of the embedding:

* a `Pointer` (shared pointer) is an `Option`; the null pointer is `none`;
* the `Model` a `ModelMeshPartPayload` points to through `_model` is passed
  explicitly, and a method that writes to it returns the new model;
* a failed `assert` and an out-of-range `QVector::at` are faults
  (`Except Fault`);
* `int` is a 32-bit two's complement integer (`CInt`); the narrowing
  `(int)` of an unsigned size is `castInt`;
* every `QVector::at` that is executed is recorded in an access log, so
  that "no list was indexed" is a statement about the result.
-/

/-! ## Machine integers and containers -/

/-- The C++ type `int`: a 32-bit two's complement integer. -/
structure CInt where
  val : Int
  lo : -2147483648 ≤ val
  hi : val < 2147483648

/-- The conversion `(int)n` of an unsigned size `n`: the value modulo `2^32`,
read as a signed 32-bit integer. -/
def castInt (n : Nat) : Int :=
  if n % 4294967296 < 2147483648 then ((n % 4294967296 : Nat) : Int)
  else ((n % 4294967296 : Nat) : Int) - 4294967296

/-- Ways in which a call can fail to return. -/
inductive Fault where
  | assertion
  | indexOutOfRange
deriving DecidableEq, Repr

deriving instance DecidableEq for Except

/-- `QVector<T>::size()`: Qt vectors report their size as an `int`. -/
def QVector.size {α : Type} (v : List α) : Int := (v.length : Int)

/-- `QVector<T>::at(i)`: the element at `i`; the index must satisfy
`0 <= i && i < size()`. -/
def QVector.at {α : Type} (v : List α) (i : Int) : Except Fault α :=
  if i < 0 then .error .indexOutOfRange
  else
    match v.get? i.toNat with
    | some x => .ok x
    | none => .error .indexOutOfRange

/-! ## Keys -/

/-- Modelled from the spec: `model::MaterialKey` is declared in a header that is
not among the sources. It is represented by the answers of the four accessors
the payload code calls on it. -/
structure model.MaterialKey where
  isTranslucent : Bool
  isNormalMap : Bool
  isMetallicMap : Bool
  isLightmapMap : Bool
deriving DecidableEq, Repr

/-- The default-constructed `model::MaterialKey` (`model::MaterialKey drawMaterialKey;`):
no flag set. -/
def model.MaterialKey.default : model.MaterialKey :=
  { isTranslucent := false, isNormalMap := false, isMetallicMap := false, isLightmapMap := false }

/-- The part of `model::Material` the payload reads: its key. -/
structure model.Material where
  getKey : model.MaterialKey
deriving DecidableEq, Repr

/-- Modelled from the spec: `render::ItemKey` is declared in a header that is not
among the sources. It is represented by the flags the payload code sets through
`ItemKey::Builder`. -/
structure render.ItemKey where
  typeShape : Bool
  transparent : Bool
  invisible : Bool
  deformed : Bool
deriving DecidableEq, Repr

/-- `ItemKey::Builder`: the flags collected so far. -/
structure render.ItemKey.Builder where
  flags : render.ItemKey
deriving DecidableEq, Repr

/-- `ItemKey::Builder builder;`: no flag set. -/
def render.ItemKey.Builder.new : render.ItemKey.Builder :=
  ⟨{ typeShape := false, transparent := false, invisible := false, deformed := false }⟩

/-- `builder.withTypeShape()`. -/
def render.ItemKey.Builder.withTypeShape (b : render.ItemKey.Builder) : render.ItemKey.Builder :=
  ⟨{ b.flags with typeShape := true }⟩

/-- `builder.withTransparent()`. -/
def render.ItemKey.Builder.withTransparent (b : render.ItemKey.Builder) : render.ItemKey.Builder :=
  ⟨{ b.flags with transparent := true }⟩

/-- `builder.withInvisible()`. -/
def render.ItemKey.Builder.withInvisible (b : render.ItemKey.Builder) : render.ItemKey.Builder :=
  ⟨{ b.flags with invisible := true }⟩

/-- `builder.withDeformed()`. -/
def render.ItemKey.Builder.withDeformed (b : render.ItemKey.Builder) : render.ItemKey.Builder :=
  ⟨{ b.flags with deformed := true }⟩

/-- `builder.build()`. -/
def render.ItemKey.Builder.build (b : render.ItemKey.Builder) : render.ItemKey := b.flags

/-- Modelled from the spec: `ItemKey::Builder::opaqueShape()` is declared in a
header that is not among the sources: the key of an opaque shape, that is the
shape type flag and nothing else. -/
def render.ItemKey.Builder.opaqueShape : render.ItemKey :=
  render.ItemKey.Builder.new.withTypeShape.build

/-- Modelled from the spec: `render::ShapeKey` is declared in a header that is not
among the sources. It is represented by the flags the payload code sets through
`ShapeKey::Builder`, and the flag that marks the invalid key. -/
structure render.ShapeKey where
  translucent : Bool
  tangents : Bool
  specular : Bool
  lightmap : Bool
  skinned : Bool
  wireframe : Bool
  invalid : Bool
deriving DecidableEq, Repr

/-- `ShapeKey::Builder`: the flags collected so far. -/
structure render.ShapeKey.Builder where
  flags : render.ShapeKey
deriving DecidableEq, Repr

/-- `ShapeKey::Builder builder;`: no flag set. -/
def render.ShapeKey.Builder.new : render.ShapeKey.Builder :=
  ⟨{ translucent := false, tangents := false, specular := false, lightmap := false,
     skinned := false, wireframe := false, invalid := false }⟩

/-- `builder.withTranslucent()`. -/
def render.ShapeKey.Builder.withTranslucent (b : render.ShapeKey.Builder) : render.ShapeKey.Builder :=
  ⟨{ b.flags with translucent := true }⟩

/-- `builder.withTangents()`. -/
def render.ShapeKey.Builder.withTangents (b : render.ShapeKey.Builder) : render.ShapeKey.Builder :=
  ⟨{ b.flags with tangents := true }⟩

/-- `builder.withSpecular()`. -/
def render.ShapeKey.Builder.withSpecular (b : render.ShapeKey.Builder) : render.ShapeKey.Builder :=
  ⟨{ b.flags with specular := true }⟩

/-- `builder.withLightmap()`. -/
def render.ShapeKey.Builder.withLightmap (b : render.ShapeKey.Builder) : render.ShapeKey.Builder :=
  ⟨{ b.flags with lightmap := true }⟩

/-- `builder.withSkinned()`. -/
def render.ShapeKey.Builder.withSkinned (b : render.ShapeKey.Builder) : render.ShapeKey.Builder :=
  ⟨{ b.flags with skinned := true }⟩

/-- `builder.withWireframe()`. -/
def render.ShapeKey.Builder.withWireframe (b : render.ShapeKey.Builder) : render.ShapeKey.Builder :=
  ⟨{ b.flags with wireframe := true }⟩

/-- `builder.build()`. -/
def render.ShapeKey.Builder.build (b : render.ShapeKey.Builder) : render.ShapeKey := b.flags

/-- Modelled from the spec: `ShapeKey::Builder::invalid()` is declared in a header
that is not among the sources: the key that carries the invalid mark and
nothing else. -/
def render.ShapeKey.Builder.invalid : render.ShapeKey :=
  { render.ShapeKey.Builder.new.flags with invalid := true }

/-- Modelled from the spec: `ShapeKey::isValid()` is declared in a header that is
not among the sources: a key is valid when it does not carry the invalid mark. -/
def render.ShapeKey.isValid (k : render.ShapeKey) : Bool := !k.invalid

/-! ## The model a `ModelMeshPartPayload` draws from -/

/-- An entry of the network mesh list (`getMeshes()`); no payload query reads
its content. -/
structure NetworkMesh where
deriving DecidableEq, Repr

/-- An entry of `Model::_meshStates`; no payload query modelled here reads its
content. -/
structure MeshState where
deriving DecidableEq, Repr

/-- The part of `FBXMesh` the payload reads: `vertices.size()` and
`tangents.size()` (the entries are float vectors). -/
structure FBXMesh where
  vertices : Nat
  tangents : Nat
deriving DecidableEq, Repr

/-- `FBXGeometry`: the list `meshes`. -/
structure FBXGeometry where
  meshes : List FBXMesh
deriving DecidableEq, Repr

/-- The state of a `Model` that the payload reads or writes. `isLoaded` and
`isWireframe` hold what the accessors of these names return; `getMeshes` is
the list `getGeometry()->getGeometry()->getMeshes()`. -/
structure Model where
  isLoaded : Bool
  isWireframe : Bool
  getMeshes : List NetworkMesh
  getFBXGeometry : FBXGeometry
  _meshStates : List MeshState
  _isVisible : Bool
  _meshGroupsKnown : Bool
  _readyWhenAdded : Bool
  _calculatedMeshBoxesValid : Bool
deriving DecidableEq, Repr

/-- `Model::isVisible()`. -/
def Model.isVisible (m : Model) : Bool := m._isVisible

/-- Modelled from the spec: `Model::invalidCalculatedMeshBoxes()` is declared in a
header that is not among the sources: it marks the calculated mesh boxes as
invalid. -/
def Model.invalidCalculatedMeshBoxes (m : Model) : Model :=
  { m with _calculatedMeshBoxesValid := false }

/-! ## Payloads -/

/-- The fields of `MeshPartPayload` that its key, bound and shape-key queries
read. `Bound` is `render::Item::Bound`, an axis-aligned box of floats that is
declared outside the sources; it is kept abstract. -/
structure MeshPartPayload (Bound : Type) where
  _drawMaterial : Option model.Material
  _localBound : Bound
  _worldBound : Bound

/-- The fields `ModelMeshPartPayload` adds to `MeshPartPayload`. The `_model`
pointer is not a field: the model it points to is passed to each method. -/
structure ModelMeshPartPayload (Bound : Type) extends MeshPartPayload Bound where
  _meshIndex : CInt
  _shapeID : CInt
  _isSkinned : Bool
  _isBlendShaped : Bool

/-- `MeshPartPayload::getKey()`. -/
def MeshPartPayload.getKey {Bound : Type} (p : MeshPartPayload Bound) : render.ItemKey :=
  let builder := render.ItemKey.Builder.new
  let builder := builder.withTypeShape
  let builder :=
    match p._drawMaterial with
    | some drawMaterial =>
      let matKey := drawMaterial.getKey
      if matKey.isTranslucent then builder.withTransparent else builder
    | none => builder
  builder.build

/-- `MeshPartPayload::getBound()`. -/
def MeshPartPayload.getBound {Bound : Type} (p : MeshPartPayload Bound) : Bound :=
  p._worldBound

/-- `MeshPartPayload::getShapeKey()`. -/
def MeshPartPayload.getShapeKey {Bound : Type} (p : MeshPartPayload Bound) : render.ShapeKey :=
  let drawMaterialKey :=
    match p._drawMaterial with
    | some drawMaterial => drawMaterial.getKey
    | none => model.MaterialKey.default
  let builder := render.ShapeKey.Builder.new
  let builder := if drawMaterialKey.isTranslucent then builder.withTranslucent else builder
  let builder := if drawMaterialKey.isNormalMap then builder.withTangents else builder
  let builder := if drawMaterialKey.isMetallicMap then builder.withSpecular else builder
  let builder := if drawMaterialKey.isLightmapMap then builder.withLightmap else builder
  builder.build

/-- `ModelMeshPartPayload::getKey()`, reading the model `_model` points to. -/
def ModelMeshPartPayload.getKey {Bound : Type} (p : ModelMeshPartPayload Bound) (_model : Model) :
    render.ItemKey :=
  let builder := render.ItemKey.Builder.new
  let builder := builder.withTypeShape
  let builder := if !_model.isVisible then builder.withInvisible else builder
  let builder := if p._isBlendShaped || p._isSkinned then builder.withDeformed else builder
  let builder :=
    match p._drawMaterial with
    | some drawMaterial =>
      let matKey := drawMaterial.getKey
      if matKey.isTranslucent then builder.withTransparent else builder
    | none => builder
  builder.build

/-- `ModelMeshPartPayload` does not redefine `getBound()`: the call resolves to
`MeshPartPayload::getBound()`. -/
def ModelMeshPartPayload.getBound {Bound : Type} (p : ModelMeshPartPayload Bound) : Bound :=
  p.toMeshPartPayload.getBound

/-- The three lists `ModelMeshPartPayload::getShapeKey()` compares `_meshIndex`
with. -/
inductive MeshList where
  | networkMeshes
  | geometryMeshes
  | meshStates
deriving DecidableEq, Repr

/-- One executed element access: the list and the index asked for. -/
structure Access where
  list : MeshList
  index : Int
deriving DecidableEq, Repr

/-- What a call of `ModelMeshPartPayload::getShapeKey()` that returns leaves
behind: the key returned, the model after the call, and the element accesses
it made, in order. -/
structure Run where
  key : render.ShapeKey
  model : Model
  indexed : List Access
deriving DecidableEq, Repr

/-- `ModelMeshPartPayload::getShapeKey()`, on the model `_model` points to. -/
def ModelMeshPartPayload.getShapeKey {Bound : Type} (p : ModelMeshPartPayload Bound)
    (_model : Model) : Except Fault Run :=
  -- assert(_model->isLoaded());
  if !_model.isLoaded then .error .assertion
  else
    let geometry := _model.getFBXGeometry
    let networkMeshes := _model.getMeshes
    let _meshIndex := p._meshIndex.val
    -- guard against partially loaded meshes
    if _meshIndex ≥ castInt networkMeshes.length ∨ _meshIndex ≥ QVector.size geometry.meshes
        ∨ _meshIndex ≥ QVector.size _model._meshStates then
      .ok ⟨render.ShapeKey.Builder.invalid, _model, []⟩
    else
      match QVector.at geometry.meshes _meshIndex with
      | .error fault => .error fault
      | .ok mesh =>
        let indexed := [Access.mk MeshList.geometryMeshes _meshIndex]
        if _meshIndex < 0 ∨ _meshIndex ≥ castInt networkMeshes.length
            ∨ _meshIndex > QVector.size geometry.meshes then
          let _model := { _model with _meshGroupsKnown := false }
          let _model := { _model with _readyWhenAdded := false }
          let _model := _model.invalidCalculatedMeshBoxes
          .ok ⟨render.ShapeKey.Builder.invalid, _model, indexed⟩
        else
          let vertexCount : Int := (mesh.vertices : Int)
          if vertexCount = 0 then
            .ok ⟨render.ShapeKey.Builder.invalid, _model, indexed⟩
          else
            let drawMaterialKey :=
              match p._drawMaterial with
              | some drawMaterial => drawMaterial.getKey
              | none => model.MaterialKey.default
            let isTranslucent := drawMaterialKey.isTranslucent
            let hasTangents := drawMaterialKey.isNormalMap && !(mesh.tangents == 0)
            let hasSpecular := drawMaterialKey.isMetallicMap
            let hasLightmap := drawMaterialKey.isLightmapMap
            let isSkinned := p._isSkinned
            let wireframe := _model.isWireframe
            let isTranslucent := if wireframe then false else isTranslucent
            let hasTangents := if wireframe then false else hasTangents
            let hasSpecular := if wireframe then false else hasSpecular
            let hasLightmap := if wireframe then false else hasLightmap
            let isSkinned := if wireframe then false else isSkinned
            let builder := render.ShapeKey.Builder.new
            let builder := if isTranslucent then builder.withTranslucent else builder
            let builder := if hasTangents then builder.withTangents else builder
            let builder := if hasSpecular then builder.withSpecular else builder
            let builder := if hasLightmap then builder.withLightmap else builder
            let builder := if isSkinned then builder.withSkinned else builder
            let builder := if wireframe then builder.withWireframe else builder
            .ok ⟨builder.build, _model, indexed⟩

/-! ## The `render::` accessors -/

/-- `render::payloadGetKey<MeshPartPayload::Pointer>`. -/
def render.payloadGetKey_MeshPartPayload {Bound : Type}
    (payload : Option (MeshPartPayload Bound)) : render.ItemKey :=
  match payload with
  | some p => p.getKey
  | none => render.ItemKey.Builder.opaqueShape

/-- `render::payloadGetBound<MeshPartPayload::Pointer>`; `default` is the
default-constructed `Item::Bound()`. -/
def render.payloadGetBound_MeshPartPayload {Bound : Type} [Inhabited Bound]
    (payload : Option (MeshPartPayload Bound)) : Bound :=
  match payload with
  | some p => p.getBound
  | none => default

/-- `render::shapeGetShapeKey<MeshPartPayload::Pointer>`. -/
def render.shapeGetShapeKey_MeshPartPayload {Bound : Type}
    (payload : Option (MeshPartPayload Bound)) : render.ShapeKey :=
  match payload with
  | some p => p.getShapeKey
  | none => render.ShapeKey.Builder.invalid

/-- `render::payloadGetKey<ModelMeshPartPayload::Pointer>`; `_model` is the
model a non-null payload points to. -/
def render.payloadGetKey_ModelMeshPartPayload {Bound : Type}
    (payload : Option (ModelMeshPartPayload Bound)) (_model : Model) : render.ItemKey :=
  match payload with
  | some p => p.getKey _model
  | none => render.ItemKey.Builder.opaqueShape

/-- `render::payloadGetBound<ModelMeshPartPayload::Pointer>`. -/
def render.payloadGetBound_ModelMeshPartPayload {Bound : Type} [Inhabited Bound]
    (payload : Option (ModelMeshPartPayload Bound)) : Bound :=
  match payload with
  | some p => p.getBound
  | none => default

/-- `render::shapeGetShapeKey<ModelMeshPartPayload::Pointer>`; `_model` is the
model a non-null payload points to. With a null payload nothing is read or
written. -/
def render.shapeGetShapeKey_ModelMeshPartPayload {Bound : Type}
    (payload : Option (ModelMeshPartPayload Bound)) (_model : Model) : Except Fault Run :=
  match payload with
  | some p => p.getShapeKey _model
  | none => .ok ⟨render.ShapeKey.Builder.invalid, _model, []⟩

/-! ## Concrete states used to exercise the definitions -/

/-- The `int` value 2. -/
def exampleIndexTwo : CInt := ⟨2, by decide, by decide⟩

/-- The `int` value -1. -/
def exampleIndexMinusOne : CInt := ⟨-1, by decide, by decide⟩

/-- A loaded model with two network meshes, two geometry meshes and two mesh
states, whose mesh groups are known. -/
def exampleModel : Model :=
  { isLoaded := true, isWireframe := false,
    getMeshes := [⟨⟩, ⟨⟩],
    getFBXGeometry := ⟨[⟨3, 0⟩, ⟨4, 4⟩]⟩,
    _meshStates := [⟨⟩, ⟨⟩],
    _isVisible := true, _meshGroupsKnown := true, _readyWhenAdded := true,
    _calculatedMeshBoxesValid := true }

/-- A payload without material whose mesh index is `i`. -/
def examplePayload (i : CInt) : ModelMeshPartPayload Unit :=
  { _drawMaterial := none, _localBound := (), _worldBound := (),
    _meshIndex := i, _shapeID := i, _isSkinned := false, _isBlendShaped := false }

/-- A loaded model whose geometry has arrived (two network meshes, two
geometry meshes) but whose mesh states have not been built yet. -/
def examplePartiallyLoaded : Model :=
  { exampleModel with _meshStates := [] }

/-- The `int` value 1. -/
def exampleIndexOne : CInt := ⟨1, by decide, by decide⟩

/-! ## Lemmas -/

/-- Narrowing a size to `int` keeps it when it is at most an `int` value. -/
theorem castInt_le_of_le (n : Nat) (i : Int) (hi : i < 2147483648) (h : (n : Int) ≤ i) :
    castInt n ≤ i := by
  unfold castInt
  split <;> omega

/-- What `getShapeKey` does once the entry assertion holds and the guard
against partially loaded meshes fires. -/
theorem getShapeKey_of_guard {Bound : Type} (p : ModelMeshPartPayload Bound) (m : Model)
    (hloaded : m.isLoaded = true)
    (hguard : p._meshIndex.val ≥ castInt m.getMeshes.length
      ∨ p._meshIndex.val ≥ QVector.size m.getFBXGeometry.meshes
      ∨ p._meshIndex.val ≥ QVector.size m._meshStates) :
    p.getShapeKey m = .ok ⟨render.ShapeKey.Builder.invalid, m, []⟩ := by
  unfold ModelMeshPartPayload.getShapeKey
  simp only [hloaded, Bool.not_true, Bool.false_eq_true, if_false]
  rw [if_pos hguard]

/-- An element access that succeeds had an index inside the vector. -/
theorem QVector.at_ok_bounds {α : Type} (v : List α) (i : Int) (x : α)
    (h : QVector.at v i = .ok x) : 0 ≤ i ∧ i < QVector.size v := by
  unfold QVector.at at h
  split at h
  · cases h
  · rename_i hneg
    split at h
    · rename_i y hy
      have hlt : i.toNat < v.length := by
        rcases Nat.lt_or_ge i.toNat v.length with hl | hl
        · exact hl
        · rw [List.get?_eq_none.mpr hl] at hy
          cases hy
      unfold QVector.size
      omega
    · cases h

/-- An element access with a negative index faults. -/
theorem QVector.at_neg {α : Type} (v : List α) (i : Int) (h : i < 0) :
    QVector.at v i = .error .indexOutOfRange := by
  unfold QVector.at
  rw [if_pos h]

/-- A call of `getShapeKey` that returns leaves the model as it found it: the
branch that clears `_meshGroupsKnown` and `_readyWhenAdded` is not reached by
any call that returns. -/
theorem getShapeKey_model_unchanged {Bound : Type} (p : ModelMeshPartPayload Bound) (m : Model)
    (run : Run) (h : p.getShapeKey m = .ok run) : run.model = m := by
  unfold ModelMeshPartPayload.getShapeKey at h
  by_cases hloaded : m.isLoaded = true
  · simp only [hloaded, Bool.not_true, Bool.false_eq_true, if_false] at h
    by_cases hguard : p._meshIndex.val ≥ castInt m.getMeshes.length
        ∨ p._meshIndex.val ≥ QVector.size m.getFBXGeometry.meshes
        ∨ p._meshIndex.val ≥ QVector.size m._meshStates
    · rw [if_pos hguard] at h
      rw [← Except.ok.inj h]
    · rw [if_neg hguard] at h
      cases hat : QVector.at m.getFBXGeometry.meshes p._meshIndex.val with
      | error fault =>
        rw [hat] at h
        cases h
      | ok mesh =>
        rw [hat] at h
        have hb := QVector.at_ok_bounds _ _ _ hat
        have hreset : ¬ (p._meshIndex.val < 0 ∨ p._meshIndex.val ≥ castInt m.getMeshes.length
            ∨ p._meshIndex.val > QVector.size m.getFBXGeometry.meshes) := by
          rintro (hneg | hnet | hgeo)
          · omega
          · exact hguard (Or.inl hnet)
          · omega
        simp only [if_neg hreset] at h
        by_cases hcount : (mesh.vertices : Int) = 0
        · rw [if_pos hcount] at h
          rw [← Except.ok.inj h]
        · rw [if_neg hcount] at h
          rw [← Except.ok.inj h]
  · simp only [hloaded, Bool.not_false, if_true] at h
    cases h

/-- With a negative mesh index, `getShapeKey` indexes `geometry.meshes` before
it tests `_meshIndex < 0`: the call faults in `QVector::at`. -/
theorem getShapeKey_negative_index {Bound : Type} (p : ModelMeshPartPayload Bound) (m : Model)
    (hloaded : m.isLoaded = true) (hneg : p._meshIndex.val < 0)
    (hnet : m.getMeshes.length < 2147483648) :
    p.getShapeKey m = .error .indexOutOfRange := by
  unfold ModelMeshPartPayload.getShapeKey
  simp only [hloaded, Bool.not_true, Bool.false_eq_true, if_false]
  have hcast : castInt m.getMeshes.length = (m.getMeshes.length : Int) := by
    unfold castInt
    split <;> omega
  have hguard : ¬ (p._meshIndex.val ≥ castInt m.getMeshes.length
      ∨ p._meshIndex.val ≥ QVector.size m.getFBXGeometry.meshes
      ∨ p._meshIndex.val ≥ QVector.size m._meshStates) := by
    unfold QVector.size
    omega
  rw [if_neg hguard, QVector.at_neg _ _ hneg]

/-! ## Evaluation of the definitions at concrete states -/

/-- The narrowing `(int)` wraps: a size of `2^31` becomes the least `int`. -/
theorem castInt_wraps : castInt 2147483648 = -2147483648 ∧ castInt 4294967297 = 1
    ∧ castInt 2 = 2 := by decide

/-- With every index in range and no material, the key has no flag set and
`geometry.meshes` has been indexed once. -/
theorem getShapeKey_in_range_example :
    (examplePayload exampleIndexOne).getShapeKey exampleModel
      = .ok ⟨render.ShapeKey.Builder.new.build, exampleModel,
          [⟨MeshList.geometryMeshes, 1⟩]⟩ := by decide

/-- With mesh index `-1` the call faults in `QVector::at`. -/
theorem getShapeKey_minus_one_example :
    (examplePayload exampleIndexMinusOne).getShapeKey exampleModel
      = .error .indexOutOfRange := by decide

/-! ## The claims -/

/-- C1: `ModelMeshPartPayload::getShapeKey` guards against partially loaded
meshes. In every state of a loaded model (the assertion the function starts
with) in which `_meshIndex` is greater than or equal to the number of network
meshes, or to the number of FBX geometry meshes, or to the number of mesh
states, the call returns `ShapeKey::Builder::invalid()`, a key for which
`isValid()` is false, with an empty access log (none of the three lists has
been indexed) and the model as it was. -/
theorem C1_getShapeKey_guard_returns_invalid {Bound : Type} (p : ModelMeshPartPayload Bound)
    (m : Model) (hloaded : m.isLoaded = true)
    (hindex : (m.getMeshes.length : Int) ≤ p._meshIndex.val
      ∨ (m.getFBXGeometry.meshes.length : Int) ≤ p._meshIndex.val
      ∨ (m._meshStates.length : Int) ≤ p._meshIndex.val) :
    p.getShapeKey m = .ok ⟨render.ShapeKey.Builder.invalid, m, []⟩
      ∧ render.ShapeKey.Builder.invalid.isValid = false := by
  refine ⟨getShapeKey_of_guard p m hloaded ?_, rfl⟩
  rcases hindex with h | h | h
  · exact Or.inl (castInt_le_of_le _ _ p._meshIndex.hi h)
  · exact Or.inr (Or.inl h)
  · exact Or.inr (Or.inr h)

/-- Witness of C1: a model whose mesh states are not built yet, asked for the
shape key of the part of mesh 1. -/
theorem C1_getShapeKey_guard_returns_invalid_witness :
    examplePartiallyLoaded.isLoaded = true
      ∧ ((examplePartiallyLoaded.getMeshes.length : Int) ≤ (examplePayload exampleIndexOne)._meshIndex.val
        ∨ (examplePartiallyLoaded.getFBXGeometry.meshes.length : Int)
            ≤ (examplePayload exampleIndexOne)._meshIndex.val
        ∨ (examplePartiallyLoaded._meshStates.length : Int)
            ≤ (examplePayload exampleIndexOne)._meshIndex.val)
      ∧ (examplePayload exampleIndexOne).getShapeKey examplePartiallyLoaded
          = .ok ⟨render.ShapeKey.Builder.invalid, examplePartiallyLoaded, []⟩
      ∧ render.ShapeKey.Builder.invalid.isValid = false :=
  ⟨by decide, by decide,
    C1_getShapeKey_guard_returns_invalid (examplePayload exampleIndexOne) examplePartiallyLoaded
      (by decide) (by decide)⟩

/-- C2, evaluated where it fails: mesh index 2 is out of range for the two
network meshes and for the two FBX geometry meshes of a loaded model whose
`_meshGroupsKnown` is true. The call returns the invalid key from the guard
against partially loaded meshes, and the model it leaves behind is the one it
found: `_meshGroupsKnown` is still true. -/
theorem C2_getShapeKey_keeps_meshGroupsKnown :
    (exampleModel.getMeshes.length : Int) ≤ (examplePayload exampleIndexTwo)._meshIndex.val
      ∧ (exampleModel.getFBXGeometry.meshes.length : Int)
          ≤ (examplePayload exampleIndexTwo)._meshIndex.val
      ∧ exampleModel._meshGroupsKnown = true
      ∧ (examplePayload exampleIndexTwo).getShapeKey exampleModel
          = .ok ⟨render.ShapeKey.Builder.invalid, exampleModel, []⟩
      ∧ ((examplePayload exampleIndexTwo).getShapeKey exampleModel).map
          (fun run => run.model._meshGroupsKnown) = .ok true := by
  decide

/-- C3: for a null payload pointer, of either specialisation, `payloadGetKey`
returns `ItemKey::Builder::opaqueShape()`, `payloadGetBound` returns the
default-constructed `Item::Bound` and `shapeGetShapeKey` returns
`ShapeKey::Builder::invalid()` (reading and writing nothing); for a non-null
pointer each returns exactly what the `getKey`, `getBound` and `getShapeKey`
of the payload return. -/
theorem C3_render_accessors_forward_or_default {Bound : Type} [Inhabited Bound] (m : Model) :
    (render.payloadGetKey_MeshPartPayload (none : Option (MeshPartPayload Bound))
          = render.ItemKey.Builder.opaqueShape
        ∧ render.payloadGetBound_MeshPartPayload (none : Option (MeshPartPayload Bound)) = default
        ∧ render.shapeGetShapeKey_MeshPartPayload (none : Option (MeshPartPayload Bound))
          = render.ShapeKey.Builder.invalid)
      ∧ (∀ p : MeshPartPayload Bound,
          render.payloadGetKey_MeshPartPayload (some p) = p.getKey
            ∧ render.payloadGetBound_MeshPartPayload (some p) = p.getBound
            ∧ render.shapeGetShapeKey_MeshPartPayload (some p) = p.getShapeKey)
      ∧ (render.payloadGetKey_ModelMeshPartPayload (none : Option (ModelMeshPartPayload Bound)) m
          = render.ItemKey.Builder.opaqueShape
        ∧ render.payloadGetBound_ModelMeshPartPayload (none : Option (ModelMeshPartPayload Bound))
          = default
        ∧ render.shapeGetShapeKey_ModelMeshPartPayload (none : Option (ModelMeshPartPayload Bound)) m
          = .ok ⟨render.ShapeKey.Builder.invalid, m, []⟩)
      ∧ (∀ p : ModelMeshPartPayload Bound,
          render.payloadGetKey_ModelMeshPartPayload (some p) m = p.getKey m
            ∧ render.payloadGetBound_ModelMeshPartPayload (some p) = p.getBound
            ∧ render.shapeGetShapeKey_ModelMeshPartPayload (some p) m = p.getShapeKey m) :=
  ⟨⟨rfl, rfl, rfl⟩, fun _ => ⟨rfl, rfl, rfl⟩, ⟨rfl, rfl, rfl⟩, fun _ => ⟨rfl, rfl, rfl⟩⟩
